import Mathlib

/-!
Verification of the WebCLI backend against its specification.

Shallow embedding of the relevant parts of the source:
 * `Tcpdump` — `backend/core/tcpdump_runner.py`: the argument validator
   `_validate_and_normalize_tokens` and its helpers.
 * `AC` — `backend/core/autocomplete_handler.py` together with the
   `__TAB__:` handling of `backend/roles/admin_handler.py`.
 * `Throttle` — the `RateLimiter` of `backend/webcli_server.py`.
 * `Auth` — `verify_password` and the per-login-attempt section of
   `websocket_endpoint` in `backend/webcli_server.py`.
 * `Session` — the admin command loop of `backend/roles/admin_handler.py`
   as a step relation on an explicit session state.

Machine floats (`time.monotonic()` values, backoff seconds) are modelled
as rationals; the filesystem, network transport and the Argon2 primitive
are treated as external and abstracted by explicit parameters.
-/

namespace Str

/-!  Kernel-computable counterparts of a few Python `str` operations
(`startswith`, `endswith`, `strip`, single-separator `split`, whitespace
`split`), defined over `String.toList` so that concrete runs of the
embedded code can be closed by `decide`. -/

/-- Python `s.startswith(p)`. -/
def hasInit (s p : String) : Bool := p.toList.isPrefixOf s.toList

/-- Python `s.endswith(p)`. -/
def hasTail (s p : String) : Bool := p.toList.isSuffixOf s.toList

/-- Python `s.strip()`. -/
def strip (s : String) : String :=
  ⟨((s.toList.dropWhile Char.isWhitespace).reverse.dropWhile Char.isWhitespace).reverse⟩

/-- Split on every occurrence of the single separator character `c`,
keeping empty groups — Python `s.split(c)` with an explicit separator. -/
def splitOnChar (c : Char) : List Char → List (List Char)
  | [] => [[]]
  | a :: as =>
    if a = c then [] :: splitOnChar c as
    else
      match splitOnChar c as with
      | g :: gs => (a :: g) :: gs
      | [] => [[a]]

/-- Collector for `splitWS`: `cur` holds the current run in reverse. -/
def splitWSAux : List Char → List Char → List (List Char)
  | cur, [] => if cur = [] then [] else [cur.reverse]
  | cur, c :: cs =>
    if c.isWhitespace then
      if cur = [] then splitWSAux [] cs else cur.reverse :: splitWSAux [] cs
    else splitWSAux (c :: cur) cs

/-- Python `s.split()` with no argument: whitespace runs separate the
tokens, leading and trailing whitespace produces no empty tokens. -/
def splitWS (s : String) : List String := (splitWSAux [] s.toList).map String.mk

end Str

namespace Tcpdump

/-- `MAX_TOKENS = 80` (tcpdump_runner.py line 39). -/
def MAX_TOKENS : Nat := 80

/-- `MAX_TOKEN_LEN = 256` (line 40). -/
def MAX_TOKEN_LEN : Nat := 256

/-- `MAX_CMD_CHARS = 4096` (line 41). -/
def MAX_CMD_CHARS : Nat := 4096

/-- `ALLOWED_FLAGS` (lines 44-47).  Note: neither `-w` nor `-r` is a member. -/
def ALLOWED_FLAGS : List String :=
  ["-i", "-n", "-nn", "-v", "-vv", "-vvv", "-c", "-s", "-X", "-XX",
   "-A", "-e", "-tt", "-ttt", "-q", "-Q", "-U", "-E", "-p", "-Z"]

/-- `FLAGS_WITH_ARG` (line 48). -/
def FLAGS_WITH_ARG : List String :=
  ["-i", "-c", "-s", "-w", "-r", "-E", "-Q", "-Z"]

/-- `ALLOWED_KEYWORDS` (lines 49-51). -/
def ALLOWED_KEYWORDS : List String :=
  ["port", "host", "src", "dst", "and", "or", "not", "ip", "ip6", "tcp", "udp", "icmp"]

/-- Character class of `RE_SAFE_TOKEN` (line 54): ASCII letters and digits
plus dot, underscore, colon, at-sign, dash and slash. -/
def isSafeChar (c : Char) : Bool :=
  c.isAlphanum || c == '.' || c == '_' || c == ':' || c == '@' || c == '-' || c == '/'

/-- Full match of `RE_SAFE_TOKEN` (the `+` quantifier requires a nonempty token). -/
def RE_SAFE_TOKEN (s : String) : Bool :=
  !s.isEmpty && s.toList.all isSafeChar

/-- The shell metacharacter class searched by `_reject_suspicious_token`
(line 92): `[;&|`$<>*?\(\)\{\}\[\]]`.  The backtick and the braces are
written via `Char.ofNat` (codes 96, 123, 125). -/
def isMetaChar (c : Char) : Bool :=
  c == ';' || c == '&' || c == '|' || c == Char.ofNat 96 || c == '$' ||
  c == '<' || c == '>' || c == '*' || c == '?' || c == '(' || c == ')' ||
  c == Char.ofNat 123 || c == Char.ofNat 125 || c == '[' || c == ']'

/-- `_reject_suspicious_token` (lines 89-95), as a boolean acceptance test:
length cap, then the metacharacter search, then the safe-token full match. -/
def suspiciousOk (tok : String) : Bool :=
  decide (tok.length ≤ MAX_TOKEN_LEN) &&
  !(tok.toList.any isMetaChar) &&
  RE_SAFE_TOKEN tok

/-- `RE_IFACE = ^[A-Za-z0-9._:-]+$` (line 55). -/
def RE_IFACE (s : String) : Bool :=
  !s.isEmpty && s.toList.all (fun c => c.isAlphanum || c == '.' || c == '_' || c == ':' || c == '-')

/-- `RE_USERNAME = ^[a-z_][a-z0-9_-]{0,31}$` (line 56). -/
def RE_USERNAME (s : String) : Bool :=
  match s.toList with
  | [] => false
  | c :: cs =>
    (c.isLower || c == '_') && decide (cs.length ≤ 31) &&
    cs.all (fun d => d.isLower || d.isDigit || d == '_' || d == '-')

/-- `RE_IPV4` (line 57): exactly four dot-separated groups of one to
three digits. -/
def RE_IPV4 (s : String) : Bool :=
  let groups := Str.splitOnChar '.' s.toList
  decide (groups.length = 4) &&
  groups.all (fun g => decide (1 ≤ g.length) && decide (g.length ≤ 3) && g.all Char.isDigit)

/-- `RE_NUMBER = ^[0-9]+$` (line 58). -/
def RE_NUMBER (s : String) : Bool :=
  !s.isEmpty && s.toList.all Char.isDigit

/-- `ALLOWED_WRITE_DIR` (line 61). -/
def ALLOWED_WRITE_DIR : String := "/var/log/webcli"

/-- `ALLOWED_WRITE_BASENAME = ^[A-Za-z0-9._-]{1,200}$` (line 62). -/
def ALLOWED_WRITE_BASENAME (s : String) : Bool :=
  decide (1 ≤ s.length) && decide (s.length ≤ 200) &&
  s.toList.all (fun c => c.isAlphanum || c == '.' || c == '_' || c == '-')

/-- The generic bare-token pattern `^[A-Za-z0-9\.-]{1,128}$` of line 174. -/
def RE_GENERIC (s : String) : Bool :=
  decide (1 ≤ s.length) && decide (s.length ≤ 128) &&
  s.toList.all (fun c => c.isAlphanum || c == '.' || c == '-')

/-- The component scan of CPython's `posixpath.normpath`: `acc` holds the
produced components in reverse.  A component is dropped when empty or `.`;
`..` pops the previous component unless the path is relative and empty so
far, or the previous component is itself `..`. -/
def normpathComps (slashes : Nat) : List String → List String → List String
  | acc, [] => acc.reverse
  | acc, comp :: comps =>
    if comp = "" ∨ comp = "." then normpathComps slashes acc comps
    else if comp ≠ ".." ∨ (slashes = 0 ∧ acc = []) ∨ acc.headD "" = ".." then
      normpathComps slashes (comp :: acc) comps
    else
      match acc with
      | _ :: acc' => normpathComps slashes acc' comps
      | [] => normpathComps slashes acc comps

/-- `os.path.normpath` on POSIX (used at line 137): empty path is `.`,
one or two leading slashes are preserved, `.` and `..` segments are
resolved by `normpathComps`. -/
def normpath (path : String) : String :=
  if path = "" then "."
  else
    let slashes : Nat :=
      if Str.hasInit path "/" then
        if Str.hasInit path "//" ∧ ¬ Str.hasInit path "///" then 2 else 1
      else 0
    let comps := normpathComps slashes [] ((Str.splitOnChar '/' path.toList).map String.mk)
    let p := String.join (List.replicate slashes "/") ++ String.intercalate "/" comps
    if p = "" then "." else p

/-- `os.path.join` on POSIX for two arguments (used at line 146). -/
def joinPath (a b : String) : String :=
  if Str.hasInit b "/" then b
  else if a = "" ∨ Str.hasTail a "/" then a ++ b
  else a ++ "/" ++ b

/-- The `while i < len(tokens)` scan of `_validate_and_normalize_tokens`
(lines 107-179), consuming one token (or a flag together with its
argument) per step and emitting the normalized output tokens;
`none` models a raised `ValidationError`. -/
def validateLoop : List String → Option (List String)
  | [] => some []
  | tok :: rest =>
    if suspiciousOk tok = false then none
    else if tok ∈ ALLOWED_FLAGS then
      if tok ∈ FLAGS_WITH_ARG then
        match rest with
        | [] => none
        | param :: rest' =>
          if suspiciousOk param = false then none
          else if tok = "-i" then
            if RE_IFACE param then (validateLoop rest').map (fun o => tok :: param :: o) else none
          else if tok = "-Z" then
            if RE_USERNAME param then (validateLoop rest').map (fun o => tok :: param :: o) else none
          else if tok = "-w" then
            if Str.hasInit param "/" then
              if Str.hasInit (normpath param) (ALLOWED_WRITE_DIR ++ "/") ∨ normpath param = ALLOWED_WRITE_DIR then
                (validateLoop rest').map (fun o => tok :: normpath param :: o)
              else none
            else
              if ALLOWED_WRITE_BASENAME param then
                (validateLoop rest').map (fun o => tok :: joinPath ALLOWED_WRITE_DIR param :: o)
              else none
          else if tok = "-c" ∨ tok = "-s" then
            if RE_NUMBER param then (validateLoop rest').map (fun o => tok :: param :: o) else none
          else if tok = "-r" then none
          else if Str.hasInit param "-" then none
          else (validateLoop rest').map (fun o => tok :: param :: o)
      else (validateLoop rest).map (fun o => tok :: o)
    else if tok ∈ ALLOWED_KEYWORDS ∨ RE_NUMBER tok = true ∨ RE_IPV4 tok = true then
      (validateLoop rest).map (fun o => tok :: o)
    else if RE_GENERIC tok then (validateLoop rest).map (fun o => tok :: o)
    else none
termination_by structural ts => ts

/-- `_validate_and_normalize_tokens` (lines 98-192): the size pre-checks,
the token scan, and the final multiple-`-Z` check.  The `os.makedirs`
side effect at lines 181-186 (which only fails on an OS error) is not part
of the pure validation result and is omitted. -/
def _validate_and_normalize_tokens (tokens : List String) : Option (List String) :=
  if tokens.length = 0 then none
  else if MAX_TOKENS < tokens.length then none
  else if MAX_CMD_CHARS < (tokens.map String.length).sum + tokens.length - 1 then none
  else
    match validateLoop tokens with
    | none => none
    | some out => if 1 < out.count "-Z" then none else some out

/-- The five characters singled out by the specification's injection test:
semicolon, pipe, backtick, dollar, and the input redirect. -/
def isInjectionChar (c : Char) : Bool :=
  c == ';' || c == '|' || c == Char.ofNat 96 || c == '$' || c == '<'

end Tcpdump

namespace AC

/-!  `backend/core/autocomplete_handler.py` together with the `__TAB__:`
branch of `backend/roles/admin_handler.py` (lines 59-69).

The per-module `autocomplete(tokens)` functions of the runner modules are
external suggestion trees (out of scope per the specification); they are
abstracted by the `delegate` parameter.  Whether the delegation fires is
determined by `ALL_COMMANDS` together with Python's `hasattr` check:
`userctl_runner` and `systemctl_runner` define `autocomplete`,
`tcpdump_runner` does not, and the built-ins map to `None`. -/

/-- `ROLE_COMMANDS` (autocomplete_handler.py lines 7-11). -/
def ROLE_COMMANDS (role : String) : List String :=
  if role = "admin" then ["tcpdump", "config", "help", "signout", "systemctl"]
  else if role = "operator" then ["tcpdump", "help", "signout"]
  else if role = "viewer" then ["help", "signout"]
  else []

/-- Python `list.insert(i, x)` for `i ≤ len(xs)`. -/
def pyInsert (i : Nat) (x : α) (xs : List α) : List α :=
  xs.take i ++ x :: xs.drop i

/-- `_allowed_for` (lines 24-31): the role's base commands, with `userctl`
inserted at index 1 for the admin named `king`. -/
def _allowed_for (role : String) (username : Option String) : List String :=
  let base := ROLE_COMMANDS role
  if role = "admin" ∧ username = some "king" ∧ "userctl" ∉ base then
    pyInsert 1 "userctl" base
  else base

/-- `handler and hasattr(handler, "autocomplete")` for `ALL_COMMANDS`
(lines 14-21): only `userctl_runner` and `systemctl_runner` define an
`autocomplete` function. -/
def moduleHasAutocomplete (cmd : String) : Bool :=
  cmd = "userctl" || cmd = "systemctl"

/-- The token list built by `autocomplete_handler` (lines 43-45):
`partial_command.strip().split()`, with a synthetic empty token appended
when the raw string ends with a space. -/
def acTokens (partialCommand : String) : List String :=
  let tokens := Str.splitWS (Str.strip partialCommand)
  if Str.hasTail partialCommand " " then tokens ++ [""] else tokens

/-- `autocomplete_handler` (lines 34-67).  `delegate cmd rest` stands for
`await handler.autocomplete(tokens[1:])`. -/
def autocomplete_handler (delegate : String → List String → List String)
    (partialCommand : String) (role : String) (username : Option String) : List String :=
  let tokens := acTokens partialCommand
  let allowed_cmds := _allowed_for role username
  if tokens = [] ∨ tokens = [""] then allowed_cmds
  else
    let cmd := tokens.headD ""
    if tokens.length = 1 ∧ ¬ Str.hasTail partialCommand " " = true then
      allowed_cmds.filter (fun c => Str.hasInit c cmd)
    else if cmd ∈ allowed_cmds ∧ moduleHasAutocomplete cmd = true then
      (delegate cmd tokens.tail).map (fun s => if s = "" then cmd ++ " " else cmd ++ " " ++ s)
    else []

/-- The partial string computed by the admin handler's `__TAB__:` branch
(admin_handler.py line 60): `cmd[len("__TAB__:"):].strip()`. -/
def adminTabPartial (cmd : String) : String :=
  Str.strip (cmd.drop 8)

/-- The token list the admin handler's autocomplete request ultimately
hands to the prefix/delegation logic. -/
def adminResolverTokens (cmd : String) : List String :=
  acTokens (adminTabPartial cmd)

end AC

namespace Throttle

/-!  The `RateLimiter` of `backend/webcli_server.py` (lines 175-260).
`time.monotonic()` values and float seconds are modelled as rationals; the
`random.random()` jitter draw is passed in as `jitterUnit ∈ [-1, 1]`. -/

/-- `_KeyState` (lines 175-182). -/
structure KeyState where
  fail_times : List ℚ
  lock_until : ℚ
  lockouts : ℕ
  deriving DecidableEq

/-- `_KeyState.__init__`: empty queue, no lock, no lockouts. -/
def KeyState.init : KeyState := ⟨[], 0, 0⟩

/-- The constructor arguments of `RateLimiter` (line 191), together with
the module-level backoff tunables `AUTH_BACKOFF_BASE`, `AUTH_BACKOFF_MAX`
and `AUTH_BACKOFF_JITTER` it reads (lines 77-80). -/
structure Config where
  window_s : ℚ
  max_fails : ℕ
  lock_base_s : ℚ
  lock_max_s : ℚ
  backoff_base : ℚ
  backoff_max : ℚ
  backoff_jitter : ℚ
  deriving DecidableEq

/-- `_purge_old` (lines 202-205): pop timestamps older than the window
from the front of the queue. -/
def purge_old (cfg : Config) (ft : List ℚ) (now : ℚ) : List ℚ :=
  ft.dropWhile (fun t => t < now - cfg.window_s)

/-- `check_blocked` (lines 207-218) for one key's state (`none` models an
absent dictionary entry). -/
def check_blocked (st : Option KeyState) (now : ℚ) : ℚ :=
  match st with
  | none => 0
  | some st => if st.lock_until > now then st.lock_until - now else 0

/-- `register_failure` (lines 226-260) on one key's state: returns
`((backoff_delay, lock_remaining), new_state)`.  `jitterUnit` is the value
of `random.random() * 2 - 1`. -/
def register_failure (cfg : Config) (st : KeyState) (now jitterUnit : ℚ) :
    (ℚ × ℚ) × KeyState :=
  if st.lock_until > now then ((0, st.lock_until - now), st)
  else
    let ft := purge_old cfg (st.fail_times ++ [now]) now
    let n := ft.length
    let backoff0 := min (cfg.backoff_base * 2 ^ (n - 1)) cfg.backoff_max
    let backoff := max 0 (backoff0 + jitterUnit * cfg.backoff_jitter * backoff0)
    if n ≥ cfg.max_fails then
      let duration := min (cfg.lock_base_s * 2 ^ st.lockouts) cfg.lock_max_s
      ((backoff, duration), ⟨[], now + duration, st.lockouts + 1⟩)
    else
      ((backoff, 0), ⟨ft, st.lock_until, st.lockouts⟩)

/-- A limiter's `_states` dictionary. -/
def StateMap := String → Option KeyState

/-- `register_failure` at the dictionary level: `setdefault` the key to a
fresh `_KeyState`, then mutate it in place. -/
def registerFailureMap (cfg : Config) (m : StateMap) (key : String) (now jitterUnit : ℚ) :
    (ℚ × ℚ) × StateMap :=
  let st := (m key).getD KeyState.init
  let r := register_failure cfg st now jitterUnit
  (r.1, fun k => if k = key then some r.2 else m k)

/-- `register_success` (lines 220-224): drop the key's entry. -/
def registerSuccessMap (m : StateMap) (key : String) : StateMap :=
  fun k => if k = key then none else m k

end Throttle

namespace Auth

/-!  `verify_password` (webcli_server.py lines 112-126) and the
per-attempt section of `websocket_endpoint` (lines 417-482), from the
point where both pre-password lockout checks returned 0 and the password
has been received.  The Argon2 primitive is external: it is abstracted as
a function into `VerifyOutcome`, whose `otherError` constructor stands for
any exception other than `VerifyMismatchError`. -/

/-- Result of `PH.verify(hash, password)`. -/
inductive VerifyOutcome
  | success
  | mismatch
  | otherError
  deriving DecidableEq

/-- `verify_password` (lines 112-126): reject non-Argon2 hashes, map a
mismatch or any other exception to `False` (fail closed). -/
def verify_password (argonVerify : String → String → VerifyOutcome)
    (argon2_hash password : String) : Bool :=
  if ¬ Str.hasInit argon2_hash "$argon2" = true then false
  else
    match argonVerify argon2_hash password with
    | .success => true
    | .mismatch => false
    | .otherError => false

/-- One record of `USERS` (`users.json`): `userid` and `role`. -/
structure UserRec where
  userid : ℕ
  role : String
  deriving DecidableEq

/-- The two limiter dictionaries (`_ip_limiter._states` and
`_user_limiter._states`). -/
structure LoginState where
  ipStates : Throttle.StateMap
  userStates : Throttle.StateMap

/-- The one reply sent for the attempt.  Lockout replies carry the raw
seconds later rendered by `_format_wait`. -/
inductive Reply
  | ipLockout (lock_s : ℚ)
  | bothLockout (lock_wait : ℚ)
  | plain (msg : String)
  | welcome (username role : String)
  deriving DecidableEq

/-- One authentication attempt (webcli_server.py lines 417-482):
unknown username → one failure charged to the IP key only (lines
423-437); known username with failed verification → one failure charged
to both keys (lines 444-465); success → both keys cleared (lines
478-482).  The `asyncio.sleep(backoff)` delays and the opportunistic
rehash (lines 467-476, external store) have no effect on limiter state or
on the reply text and are omitted. -/
def loginAttempt (users : String → Option UserRec) (hashes : String → Option String)
    (argonVerify : String → String → VerifyOutcome)
    (ipCfg userCfg : Throttle.Config) (s : LoginState)
    (ip username password : String) (now jIp jUser : ℚ) : Reply × LoginState :=
  match users username with
  | none =>
    let r := Throttle.registerFailureMap ipCfg s.ipStates ip now jIp
    if r.1.2 > 0 then (.ipLockout r.1.2, ⟨r.2, s.userStates⟩)
    else (.plain "❌ Authentication failed.", ⟨r.2, s.userStates⟩)
  | some user =>
    let stored := hashes (Nat.repr user.userid)
    let authed :=
      match stored with
      | none => false
      | some h => !(h = "") && verify_password argonVerify h password
    if authed = false then
      let rIp := Throttle.registerFailureMap ipCfg s.ipStates ip now jIp
      let rUser := Throttle.registerFailureMap userCfg s.userStates username now jUser
      let lock_wait := max rIp.1.2 rUser.1.2
      if lock_wait > 0 then (.bothLockout lock_wait, ⟨rIp.2, rUser.2⟩)
      else (.plain "❌ Authentication failed.", ⟨rIp.2, rUser.2⟩)
    else
      (.welcome username user.role,
       ⟨Throttle.registerSuccessMap s.ipStates ip,
        Throttle.registerSuccessMap s.userStates username⟩)

end Auth

namespace Session

/-!  The admin command loop of `backend/roles/admin_handler.py` as a step
relation.  The session state mirrors the loop's local variables:
`live` counts the dispatched long-running tasks that have not yet run
their done-callback (`running_task` holds at most one), `needPrompt` is
`need_prompt`, and `stopped` records that the handler returned.

Events are the points where the loop interacts with the outside world:
`line cmd` is one `receive_text` result processed by the loop body
followed by the prompt check at the top of the next iteration (lines
28-30), and `jobDone` is the done-callback of a dispatched task (lines
107-112) firing.  The streamed output of the subprocess itself, and the
bodies of `config_manager.show` and `handle_userctl` (synchronous
sub-dialogues), are external to the loop and abstracted; only the
handler's own sends and prompts are recorded. -/

/-- Loop-local state of `admin_handler`. -/
structure S where
  live : ℕ
  needPrompt : Bool
  stopped : Bool
  deriving DecidableEq

/-- Observable sends of the handler; `prompt` is `send_prompt()`. -/
inductive Out
  | text (msg : String)
  | prompt
  deriving DecidableEq

/-- External events driving the loop. -/
inductive Ev
  | line (cmd : String)
  | jobDone
  deriving DecidableEq

/-- The `__INTERRUPT__` token (line 35). -/
def INTERRUPT : String := "__INTERRUPT__"

/-- The rejection sent while a command is running (line 55). -/
def alreadyRunningMsg : String := "⚠️ A command is already running. Interrupt it with Ctrl+C."

/-- `cmd.startswith("tcpdump ") or cmd == "tcpdump"` and the two analogous
long-running dispatch tests (lines 104, 118, 131). -/
def isDispatchCmd (cmd : String) : Bool :=
  Str.hasInit cmd "tcpdump " || cmd == "tcpdump" ||
  Str.hasInit cmd "systemctl " || cmd == "systemctl" ||
  Str.hasInit cmd "iptables " || cmd == "iptables"

/-- `help` output (lines 78-82): `userctl` is shown only to `king`. -/
def helpText (username : String) : String :=
  let cmds := ["help", "signout", "config", "tcpdump", "systemctl"]
  let cmds := if username = "king" then AC.pyInsert 3 "userctl <subcommand>" cmds else cmds
  "🛠 Available commands: " ++ String.intercalate ", " cmds

/-- The three tagged autocomplete replies (lines 63-68). -/
def tabReply (suggestions : List String) : String :=
  if suggestions = [] then "__AUTOCOMPLETE__:[NOMATCHES]"
  else if suggestions.length = 1 then "__AUTOCOMPLETE__:[REPLACE]" ++ suggestions.headD ""
  else "__AUTOCOMPLETE__:[MATCHES] " ++ String.intercalate ", " suggestions

/-- The loop body for one received line (lines 32-147): the interrupt
branch, the command-already-running guard, autocomplete, `signout`,
`help`, `config`, `userctl`, the three task dispatches, and the unknown
command fallback, in source order. -/
def handleLine (delegate : String → List String → List String)
    (username : String) (s : S) (cmd : String) : S × List Out :=
  if cmd = INTERRUPT then
    if 0 < s.live then
      -- lines 36-47: interrupt and cancel the task; its done-callback
      -- sends the prompt; need_prompt is left False
      (⟨0, false, s.stopped⟩, [.text "✋ Command interrupted by user.", .prompt])
    else
      (⟨s.live, true, s.stopped⟩, [.text "⚠️ No running command to interrupt."])
  else if 0 < s.live then
    (s, [.text alreadyRunningMsg])
  else if Str.hasInit cmd "__TAB__:" then
    let suggestions := AC.autocomplete_handler delegate (AC.adminTabPartial cmd) "admin" (some username)
    (s, [.text (tabReply suggestions)])
  else if Str.hasInit cmd "signout " ∨ cmd = "signout" then
    (⟨s.live, s.needPrompt, true⟩, [.text "🚪 Signing out..."])
  else if Str.hasInit cmd "help " ∨ cmd = "help" then
    (⟨s.live, true, s.stopped⟩, [.text (helpText username)])
  else if Str.hasInit cmd "config " ∨ cmd = "config" then
    (⟨s.live, true, s.stopped⟩, [.text "🔙 Returned from config mode."])
  else if Str.hasInit cmd "userctl " ∨ cmd = "userctl" then
    if ¬ username = "king" then
      (⟨s.live, true, s.stopped⟩, [.text "⛔ 'userctl' is restricted. Permission Denied!"])
    else
      (⟨s.live, true, s.stopped⟩, [])
  else if isDispatchCmd cmd then
    (⟨s.live + 1, s.needPrompt, s.stopped⟩, [])
  else
    (⟨s.live, true, s.stopped⟩, [.text ("❓ Unknown command: '" ++ cmd ++ "'")])

/-- One step of the session: a processed line followed by the prompt
check at the top of the loop (lines 28-30), or a done-callback firing
(running task cleared, `need_prompt` set `False`, one prompt sent). -/
def step (delegate : String → List String → List String)
    (username : String) (s : S) (e : Ev) : S × List Out :=
  if s.stopped then (s, [])
  else
    match e with
    | .jobDone =>
      if 0 < s.live then (⟨s.live - 1, false, s.stopped⟩, [.prompt]) else (s, [])
    | .line cmd =>
      let r := handleLine delegate username s cmd
      if r.1.stopped then r
      else if r.1.live = 0 ∧ r.1.needPrompt = true then
        (⟨r.1.live, false, r.1.stopped⟩, r.2 ++ [.prompt])
      else r

/-- The state at the first `receive_text`: the greeting and the initial
prompt (lines 14-30) have been sent, nothing is running. -/
def initS : S := ⟨0, false, false⟩

/-- Run the loop over a list of events. -/
def exec (delegate : String → List String → List String)
    (username : String) : S → List Ev → S
  | s, [] => s
  | s, e :: es => exec delegate username (step delegate username s e).1 es

/-- Whether an observable send is a prompt. -/
def isPrompt : Out → Bool
  | .prompt => true
  | .text _ => false

/-- Number of prompts in an output batch. -/
def promptCount (outs : List Out) : ℕ := outs.countP isPrompt

end Session

/-!  ## Theorems

Helper lemmas first, then one theorem per claim (with a witness where the
theorem carries hypotheses). -/

namespace Tcpdump

theorem isInjectionChar_isMetaChar {c : Char} (h : isInjectionChar c = true) :
    isMetaChar c = true := by
  simp only [isInjectionChar, Bool.or_eq_true, beq_iff_eq] at h
  simp only [isMetaChar, Bool.or_eq_true, beq_iff_eq]
  tauto

theorem suspiciousOk_eq_false_of_injection {t : String}
    (h : t.toList.any isInjectionChar = true) : suspiciousOk t = false := by
  obtain ⟨c, hc, hchar⟩ := List.any_eq_true.1 h
  have hm : t.toList.any isMetaChar = true :=
    List.any_eq_true.2 ⟨c, hc, isInjectionChar_isMetaChar hchar⟩
  unfold suspiciousOk
  rw [hm]
  simp

/-- Every token consumed by a successful run of the validator scan passed
`_reject_suspicious_token`. -/
theorem validateLoop_tokens_ok :
    ∀ {ts out : List String}, validateLoop ts = some out →
      ∀ t ∈ ts, suspiciousOk t = true := by
  intro ts
  induction ts using Tcpdump.validateLoop.induct with
  | case1 => intro out h t ht; cases ht
  | _ =>
    intro out h t ht
    rw [Tcpdump.validateLoop.eq_def] at h
    try simp_all
    try obtain ⟨a, ha, -⟩ := h
    try (rcases ht with rfl | rfl | ht <;> first | assumption | (apply_assumption <;> assumption))
    try (rcases ht with rfl | ht <;> first | assumption | (apply_assumption <;> assumption))
    try simp_all

/-- C1: contrary to the claim, a `-r` token does not make validation
fail.  `-r` is absent from `ALLOWED_FLAGS`, so the explicit rejection
`raise ValidationError("-r (read capture) not allowed ...")` at
tcpdump_runner.py line 158 is unreachable; `-r` instead matches the
generic bare-token pattern of line 174 and is emitted into the validated
vector. -/
theorem read_flag_accepted_by_validator :
    _validate_and_normalize_tokens ["-r", "x.pcap"] = some ["-r", "x.pcap"] ∧
    "-r" ∈ ["-r", "x.pcap"] ∧ "-r" ∉ ALLOWED_FLAGS := by
  refine ⟨by decide, by decide, by decide⟩

/-- C2: contrary to the claim, the `-w` special case never executes.
`-w` is absent from `ALLOWED_FLAGS`, so the branch of tcpdump_runner.py
lines 135-149 is unreachable: `-w capture` validates as two generic bare
tokens with no directory mapping, and `-w /var/log/webcli/a.pcap` — which
the claim says must be accepted — is rejected because an absolute path
never matches the generic bare-token pattern. -/
theorem write_flag_special_case_unreachable :
    _validate_and_normalize_tokens ["-w", "capture"] = some ["-w", "capture"] ∧
    _validate_and_normalize_tokens ["-w", "/var/log/webcli/a.pcap"] = none ∧
    "-w" ∉ ALLOWED_FLAGS := by
  refine ⟨by decide, by decide, by decide⟩

/-- C3: a token containing `;`, `|`, a backtick, `$` or `<` at any
position makes validation of the whole command fail. -/
theorem validator_rejects_shell_metachar_tokens (ts : List String) (t : String)
    (hmem : t ∈ ts) (hbad : t.toList.any isInjectionChar = true) :
    _validate_and_normalize_tokens ts = none := by
  have hfail : validateLoop ts = none := by
    cases hv : validateLoop ts with
    | none => rfl
    | some out =>
      have hok := validateLoop_tokens_ok hv t hmem
      rw [suspiciousOk_eq_false_of_injection hbad] at hok
      cases hok
  unfold _validate_and_normalize_tokens
  simp [hfail]

/-- Witness for C3 at the concrete token list `["port", "a;b"]`. -/
theorem validator_rejects_shell_metachar_tokens_witness :
    ("a;b" ∈ ["port", "a;b"]) ∧ ("a;b".toList.any isInjectionChar = true) ∧
    _validate_and_normalize_tokens ["port", "a;b"] = none :=
  ⟨by decide, by decide,
   validator_rejects_shell_metachar_tokens ["port", "a;b"] "a;b" (by decide) (by decide)⟩

end Tcpdump

namespace AC

/-- C4: contrary to the claim, a trailing space on the raw partial string
is not preserved.  `admin_handler` strips the partial
(`cmd[len("__TAB__:"):].strip()`, admin_handler.py line 60) before
`autocomplete_handler` tokenizes it, so the synthetic-empty-token branch
of autocomplete_handler.py lines 44-45 never fires for a request coming
from the handler: for the request `__TAB__:tcpdump ` the resolver sees
`["tcpdump"]` with no empty trailing token and answers with the top-level
command-name completion `["tcpdump"]` instead of completing arguments. -/
theorem trailing_space_lost_before_tokenizing :
    Str.hasTail "tcpdump " " " = true ∧
    adminTabPartial "__TAB__:tcpdump " = "tcpdump" ∧
    adminResolverTokens "__TAB__:tcpdump " = ["tcpdump"] ∧
    ("" ∉ adminResolverTokens "__TAB__:tcpdump ") ∧
    autocomplete_handler (fun _ _ => []) (adminTabPartial "__TAB__:tcpdump ")
      "admin" (some "alice") = ["tcpdump"] := by
  refine ⟨by decide, by decide, by decide, by decide, by decide⟩

end AC

namespace Throttle

/-- C5: registering a failure for a key that is not locked, when the
purged queue reaches the `max_fails` threshold, triggers a lockout: the
reported lock duration is `min(lock_base_s * 2 ^ lockouts, lock_max_s)`
computed with the pre-increment lockout counter, the counter increments
by one, the failure queue is cleared, and `lock_until` becomes
`now + lock_duration`. -/
theorem register_failure_triggers_lockout
    (cfg : Config) (st : KeyState) (now j : ℚ)
    (hnl : st.lock_until ≤ now)
    (hth : cfg.max_fails ≤ (purge_old cfg (st.fail_times ++ [now]) now).length) :
    ((register_failure cfg st now j).1.2 =
        min (cfg.lock_base_s * 2 ^ st.lockouts) cfg.lock_max_s) ∧
    (register_failure cfg st now j).2.lockouts = st.lockouts + 1 ∧
    (register_failure cfg st now j).2.fail_times = [] ∧
    (register_failure cfg st now j).2.lock_until =
      now + (register_failure cfg st now j).1.2 := by
  have h1 : ¬ st.lock_until > now := not_lt.mpr hnl
  simp [register_failure, h1, hth, ge_iff_le]

/-- Witness for C5: three failures at times 1, 2, 3 inside a 300 s window
with `max_fails = 3`, no prior lockout. -/
theorem register_failure_triggers_lockout_witness :
    ((register_failure ⟨300, 3, 30, 3600, 1, 5, 1/4⟩ ⟨[1, 2], 0, 0⟩ 3 0).1.2 =
        min ((30 : ℚ) * 2 ^ 0) 3600) ∧
    (register_failure ⟨300, 3, 30, 3600, 1, 5, 1/4⟩ ⟨[1, 2], 0, 0⟩ 3 0).2.lockouts = 0 + 1 ∧
    (register_failure ⟨300, 3, 30, 3600, 1, 5, 1/4⟩ ⟨[1, 2], 0, 0⟩ 3 0).2.fail_times = [] ∧
    (register_failure ⟨300, 3, 30, 3600, 1, 5, 1/4⟩ ⟨[1, 2], 0, 0⟩ 3 0).2.lock_until =
      3 + (register_failure ⟨300, 3, 30, 3600, 1, 5, 1/4⟩ ⟨[1, 2], 0, 0⟩ 3 0).1.2 :=
  register_failure_triggers_lockout ⟨300, 3, 30, 3600, 1, 5, 1/4⟩ ⟨[1, 2], 0, 0⟩ 3 0
    (by decide) (by norm_num [purge_old, List.dropWhile])

/-- C6: registering a failure for a key whose lockout is still active
returns `(0, lock_until - now)` and leaves the key's state unchanged. -/
theorem register_failure_while_locked_is_noop
    (cfg : Config) (st : KeyState) (now j : ℚ) (h : now < st.lock_until) :
    register_failure cfg st now j = ((0, st.lock_until - now), st) := by
  simp [register_failure, h]

/-- Witness for C6: a key locked until 10, failing again at time 4. -/
theorem register_failure_while_locked_is_noop_witness :
    register_failure ⟨300, 3, 30, 3600, 1, 5, 1/4⟩ ⟨[], 10, 1⟩ 4 0 =
      ((0, 10 - 4), ⟨[], 10, 1⟩) :=
  register_failure_while_locked_is_noop ⟨300, 3, 30, 3600, 1, 5, 1/4⟩ ⟨[], 10, 1⟩ 4 0 (by decide)

end Throttle

namespace Auth

/-- C10: `verify_password` is a total function (exceptions from the
Argon2 primitive are mapped to `false`, so it never raises) and it
returns `true` exactly when the stored hash is a string beginning with
`$argon2` and Argon2 verification succeeds; a mismatch, a malformed hash,
or any other verifier exception yields `false`. -/
theorem verify_password_fail_closed (argonVerify : String → String → VerifyOutcome)
    (h p : String) :
    verify_password argonVerify h p = true ↔
      (Str.hasInit h "$argon2" = true ∧ argonVerify h p = .success) := by
  unfold verify_password
  split
  · simp_all
  · split <;> simp_all

end Auth
namespace Auth

/-- C7: an attempt with an unknown username charges only the IP-address
limiter: the username-limiter dictionary is untouched, the IP dictionary
receives exactly one registered failure, and when no lockout triggers the
reply is the generic `❌ Authentication failed.` — the identical reply a
known-username wrong-password attempt produces when no lockout triggers
(final conjunct). -/
theorem unknown_username_charges_ip_only
    (users : String → Option UserRec) (hashes : String → Option String)
    (argonVerify : String → String → VerifyOutcome)
    (ipCfg userCfg : Throttle.Config) (s : LoginState)
    (ip username password : String) (now jIp jUser : ℚ)
    (hunk : users username = none) :
    ((loginAttempt users hashes argonVerify ipCfg userCfg s ip username password now jIp jUser).2.userStates
        = s.userStates) ∧
    ((loginAttempt users hashes argonVerify ipCfg userCfg s ip username password now jIp jUser).2.ipStates
        = (Throttle.registerFailureMap ipCfg s.ipStates ip now jIp).2) ∧
    ((Throttle.registerFailureMap ipCfg s.ipStates ip now jIp).1.2 ≤ 0 →
      (loginAttempt users hashes argonVerify ipCfg userCfg s ip username password now jIp jUser).1
        = .plain "❌ Authentication failed.") ∧
    (∀ (users₂ : String → Option UserRec) (hashes₂ : String → Option String)
       (argonVerify₂ : String → String → VerifyOutcome) (s₂ : LoginState)
       (ip₂ username₂ password₂ : String) (now₂ jIp₂ jUser₂ : ℚ) (u₂ : UserRec),
       users₂ username₂ = some u₂ →
       (match hashes₂ (Nat.repr u₂.userid) with
        | none => false
        | some h => !(h = "") && verify_password argonVerify₂ h password₂) = false →
       (Throttle.registerFailureMap ipCfg s₂.ipStates ip₂ now₂ jIp₂).1.2 ≤ 0 →
       (Throttle.registerFailureMap userCfg s₂.userStates username₂ now₂ jUser₂).1.2 ≤ 0 →
       (loginAttempt users₂ hashes₂ argonVerify₂ ipCfg userCfg s₂ ip₂ username₂ password₂ now₂ jIp₂ jUser₂).1
        = .plain "❌ Authentication failed.") := by
  refine ⟨?_, ?_, ?_, ?_⟩
  · simp only [loginAttempt, hunk]
    split <;> rfl
  · simp only [loginAttempt, hunk]
    split <;> rfl
  · intro hle
    have hneg : ¬ (Throttle.registerFailureMap ipCfg s.ipStates ip now jIp).1.2 > 0 :=
      not_lt.mpr hle
    simp only [loginAttempt, hunk]
    rw [if_neg hneg]
  · intro users₂ hashes₂ argonVerify₂ s₂ ip₂ username₂ password₂ now₂ jIp₂ jUser₂ u₂ hu hauthed hip huser
    have hmax : ¬ (max (Throttle.registerFailureMap ipCfg s₂.ipStates ip₂ now₂ jIp₂).1.2
        (Throttle.registerFailureMap userCfg s₂.userStates username₂ now₂ jUser₂).1.2 > 0) := by
      rw [not_lt]
      exact max_le hip huser
    simp only [loginAttempt, hu]
    rw [if_pos hauthed, if_neg hmax]

end Auth

namespace Auth

/-- Concrete user table for the C7 witness: only `bob` exists. -/
def wUsers : String → Option UserRec :=
  fun u => if u = "bob" then some ⟨7, "admin"⟩ else none

/-- Concrete hash store for the C7 witness. -/
def wHashes : String → Option String := fun _ => none

/-- Concrete Argon2 verifier for the C7 witness. -/
def wVerify : String → String → VerifyOutcome := fun _ _ => .mismatch

/-- Empty limiter dictionaries for the C7 witness. -/
def wState : LoginState := ⟨fun _ => none, fun _ => none⟩

/-- Witness for C7: the unknown username `eve` leaves the username-limiter
dictionary untouched. -/
theorem unknown_username_charges_ip_only_witness :
    wUsers "eve" = none ∧
    (loginAttempt wUsers wHashes wVerify ⟨300, 20, 30, 3600, 1, 5, 1/4⟩
        ⟨300, 10, 30, 3600, 1, 5, 1/4⟩ wState "1.2.3.4" "eve" "pw" 0 0 0).2.userStates
      = wState.userStates :=
  ⟨by decide,
   (unknown_username_charges_ip_only wUsers wHashes wVerify ⟨300, 20, 30, 3600, 1, 5, 1/4⟩
      ⟨300, 10, 30, 3600, 1, 5, 1/4⟩ wState "1.2.3.4" "eve" "pw" 0 0 0 (by decide)).1⟩

end Auth

namespace Session

/-- Trivial delegate used by concrete witnesses. -/
def noDelegate : String → List String → List String := fun _ _ => []

/-- `step` on a received line, unfolded. -/
theorem step_line (delegate : String → List String → List String)
    (username : String) (s : S) (cmd : String) :
    step delegate username s (.line cmd) =
      if s.stopped then (s, []) else
        (let r := handleLine delegate username s cmd
         if r.1.stopped then r
         else if r.1.live = 0 ∧ r.1.needPrompt = true then
           (⟨r.1.live, false, r.1.stopped⟩, r.2 ++ [.prompt])
         else r) := rfl

/-- `step` on a done-callback, unfolded. -/
theorem step_jobDone (delegate : String → List String → List String)
    (username : String) (s : S) :
    step delegate username s .jobDone =
      if s.stopped then (s, [])
      else if 0 < s.live then (⟨s.live - 1, false, s.stopped⟩, [Out.prompt])
      else (s, []) := rfl

/-- The loop body never raises the live-task count above one: a dispatch
happens only behind the command-already-running guard. -/
theorem handleLine_live_le (delegate : String → List String → List String)
    (username : String) (s : S) (cmd : String) (h : s.live ≤ 1) :
    (handleLine delegate username s cmd).1.live ≤ 1 := by
  unfold handleLine
  repeat' split
  all_goals simp_all

theorem step_live_le (delegate : String → List String → List String)
    (username : String) (s : S) (e : Ev) (h : s.live ≤ 1) :
    (step delegate username s e).1.live ≤ 1 := by
  cases e with
  | jobDone =>
    rw [step_jobDone]
    split
    · exact h
    · split
      · simp
        omega
      · exact h
  | line cmd =>
    have hl := handleLine_live_le delegate username s cmd h
    rw [step_line]
    split
    · exact h
    · dsimp only
      split
      · exact hl
      · split
        · simpa using hl
        · exact hl

/-- A step never leaves a prompt owed at the next receive point. -/
theorem step_needPrompt_false (delegate : String → List String → List String)
    (username : String) (s : S) (e : Ev) (h : s.needPrompt = false) :
    (step delegate username s e).1.needPrompt = false := by
  cases e with
  | jobDone =>
    rw [step_jobDone]
    split
    · exact h
    · split
      · rfl
      · exact h
  | line cmd =>
    rw [step_line]
    split
    · exact h
    · unfold handleLine
      repeat' split
      all_goals simp_all

theorem exec_live_le (delegate : String → List String → List String)
    (username : String) :
    ∀ (evs : List Ev) (s : S), s.live ≤ 1 → (exec delegate username s evs).live ≤ 1 := by
  intro evs
  induction evs with
  | nil => intro s hs; exact hs
  | cons e es ih => intro s hs; exact ih _ (step_live_le delegate username s e hs)

theorem exec_needPrompt_false (delegate : String → List String → List String)
    (username : String) :
    ∀ (evs : List Ev) (s : S), s.needPrompt = false →
      (exec delegate username s evs).needPrompt = false := by
  intro evs
  induction evs with
  | nil => intro s hs; exact hs
  | cons e es ih => intro s hs; exact ih _ (step_needPrompt_false delegate username s e hs)

/-- C8: a session has at most one live Job at any instant — every state
reachable from the initial state carries at most one live task — and
while one is live, every input line other than the interrupt token is
answered with the already-running rejection, leaving the state (and hence
the set of live Jobs) unchanged and dispatching nothing. -/
theorem at_most_one_live_job (delegate : String → List String → List String)
    (username : String) (evs : List Ev) (s : S) (cmd : String)
    (hlive : 0 < s.live) (hstop : s.stopped = false) (hcmd : cmd ≠ INTERRUPT) :
    (exec delegate username initS evs).live ≤ 1 ∧
    step delegate username s (.line cmd) = (s, [Out.text alreadyRunningMsg]) := by
  refine ⟨exec_live_le delegate username evs initS (by decide), ?_⟩
  have h0 : ¬ s.live = 0 := by omega
  rw [step_line]
  rw [if_neg (by simp [hstop])]
  unfold handleLine
  rw [if_neg hcmd, if_pos hlive]
  simp [h0]

/-- Witness for C8 at a concrete trace and state. -/
theorem at_most_one_live_job_witness :
    (0 < (⟨1, false, false⟩ : S).live) ∧ ("help" ≠ INTERRUPT) ∧
    ((exec noDelegate "alice" initS [.line "tcpdump -n", .line "help"]).live ≤ 1 ∧
     step noDelegate "alice" ⟨1, false, false⟩ (.line "help") =
       (⟨1, false, false⟩, [Out.text alreadyRunningMsg])) :=
  ⟨by decide, by decide,
   at_most_one_live_job noDelegate "alice" [.line "tcpdump -n", .line "help"]
     ⟨1, false, false⟩ "help" (by decide) (by decide) (by decide)⟩

/-- C9 counterexample: from the initial state, `tcpdump -n` is dispatched
(its task is live), and the next line `help` — a completed turn that ends
in the command-already-running rejection — is answered with zero prompts,
refuting "never zero" for rejection turns. -/
theorem prompt_per_turn_counterexample :
    exec noDelegate "alice" initS [.line "tcpdump -n"] = ⟨1, false, false⟩ ∧
    (step noDelegate "alice" ⟨1, false, false⟩ (.line "help")).2 = [Out.text alreadyRunningMsg] ∧
    promptCount (step noDelegate "alice" ⟨1, false, false⟩ (.line "help")).2 = 0 := by
  refine ⟨by decide, by decide, by decide⟩

set_option maxHeartbeats 1000000 in
/-- C9 (amended): at every receive point no prompt is owed; a turn begun
with no live Job and answered synchronously — any line that is not an
autocomplete request, not `signout`, and not a long-running dispatch —
emits exactly one prompt; a dispatch turn emits no prompt at dispatch
and exactly one prompt when the Job's done-callback fires; interrupting
a live Job emits exactly one prompt (from the cancelled task's
done-callback); but a line rejected because a command is already running
emits zero prompts. -/
theorem prompt_discipline_amended (delegate : String → List String → List String)
    (username : String) (live : ℕ) (cmd : String) :
    (∀ evs, (exec delegate username initS evs).needPrompt = false) ∧
    (live = 0 → Str.hasInit cmd "__TAB__:" = false →
      Str.hasInit cmd "signout " = false → cmd ≠ "signout" →
      isDispatchCmd cmd = false →
      promptCount (step delegate username ⟨live, false, false⟩ (.line cmd)).2 = 1) ∧
    (live = 0 → isDispatchCmd cmd = true →
      cmd ≠ INTERRUPT → Str.hasInit cmd "__TAB__:" = false →
      Str.hasInit cmd "signout " = false → cmd ≠ "signout" →
      Str.hasInit cmd "help " = false → cmd ≠ "help" →
      Str.hasInit cmd "config " = false → cmd ≠ "config" →
      Str.hasInit cmd "userctl " = false → cmd ≠ "userctl" →
      promptCount (step delegate username ⟨live, false, false⟩ (.line cmd)).2 = 0 ∧
      (step delegate username ⟨live, false, false⟩ (.line cmd)).1 = ⟨1, false, false⟩ ∧
      promptCount (step delegate username ⟨1, false, false⟩ .jobDone).2 = 1) ∧
    (0 < live → promptCount (step delegate username ⟨live, false, false⟩ (.line INTERRUPT)).2 = 1) ∧
    (0 < live → cmd ≠ INTERRUPT →
      promptCount (step delegate username ⟨live, false, false⟩ (.line cmd)).2 = 0) := by
  refine ⟨fun evs => exec_needPrompt_false delegate username evs initS rfl, ?_, ?_, ?_, ?_⟩
  · intro h0 htab hso1 hso2 hdis
    subst h0
    by_cases hI : cmd = INTERRUPT
    · simp [step, handleLine, hI, promptCount, isPrompt]
    · simp only [step, handleLine]
      simp [hI, htab, hso1, hso2, hdis, promptCount, isPrompt]
      repeat' split
      all_goals simp_all [promptCount, isPrompt]
  · intro h0 hdis hint htab hso1 hso2 hhe1 hhe2 hco1 hco2 huc1 huc2
    subst h0
    refine ⟨?_, ?_, ?_⟩
    · simp [step, handleLine, hint, htab, hso1, hso2, hhe1, hhe2, hco1, hco2, huc1, huc2,
        hdis, promptCount, isPrompt]
    · simp [step, handleLine, hint, htab, hso1, hso2, hhe1, hhe2, hco1, hco2, huc1, huc2, hdis]
    · rfl
  · intro hlive
    simp [step, handleLine, hlive, Nat.pos_iff_ne_zero.mp hlive, promptCount, isPrompt]
  · intro hlive hint
    simp [step, handleLine, hlive, hint, Nat.pos_iff_ne_zero.mp hlive, promptCount, isPrompt]

/-- Witness for C9's amended theorem: the `help` turn from an idle state
emits exactly one prompt. -/
theorem prompt_discipline_amended_witness :
    promptCount (step noDelegate "alice" ⟨0, false, false⟩ (.line "help")).2 = 1 :=
  (prompt_discipline_amended noDelegate "alice" 0 "help").2.1 rfl (by decide) (by decide)
    (by decide) (by decide)

end Session
